import Mathlib

/-!
# comff-notifications-client: the connection and call-shaping layer

A shallow embedding of `client.go`.  The Go code is a thin adapter over three
external libraries (the standard `context` package, gRPC with its `metadata`
package, and the generated `api.NotificationsClient` stub).  The embedding is
organised as follows.

* Values of external types (requests, responses, TLS configuration, the gRPC
  connection, call options, the logger) are abstract: they are the fields of
  `ExtTypes`.  The behaviour of external functions (`os.Getenv`,
  `config.SetupTLSConfig`, `credentials.NewTLS`, `grpc.Dial`,
  `api.NewNotificationsClient`, `(*grpc.ClientConn).Close`) is a parameter,
  `Ext`, so a theorem holds for every behaviour of these collaborators, unless
  it names the part of their contract it relies on (`ClosedConnContract`).
* Effects are explicit: a function takes the state of the outside world
  (`T.World`: the network, the connection, the remote service) and returns the
  new one, together with the trace of the external calls it made, in order.
* `*ClientOption` is a pointer: the client keeps the address of the options
  object, and the object lives in a store (`Heap`) shared with whoever built it.
* `context.Context` is the tree of derived contexts that the standard library
  builds; `Deadline` and `Value` walk it as the library does.
* Instants and durations are integers (nanoseconds).  `time.Time` arithmetic is
  taken to be exact; the clock reading is far from the limits of `time.Time`.
-/

namespace Comff

/-! ## Constants and configuration -/

/-- Constant `DEFAULT_SERVICE_PORT` of client.go. -/
def DEFAULT_SERVICE_PORT : String := "58051"

/-- Constant `DEFAULT_SERVICE_HOST` of client.go. -/
def DEFAULT_SERVICE_HOST : String := "127.0.0.1"

/-- Constant `DefaultClientName` of client.go. -/
def DefaultClientName : String := "comfforts-notifications-client"

/-- An instant (`time.Time`), in nanoseconds. -/
abbrev Time := Int

/-- A `time.Duration`, in nanoseconds. -/
abbrev Duration := Int

/-- One second, `time.Second`. -/
def Second : Duration := 1000000000

/-- Package variable `defaultDialTimeout`. -/
def defaultDialTimeout : Duration := 5 * Second

/-- Package variable `defaultKeepAlive`. -/
def defaultKeepAlive : Duration := 30 * Second

/-- Package variable `defaultKeepAliveTimeout`. -/
def defaultKeepAliveTimeout : Duration := 10 * Second

/-- The struct `ClientOption`. -/
structure ClientOption where
  DialTimeout : Duration
  KeepAlive : Duration
  KeepAliveTimeout : Duration
  Caller : String
deriving DecidableEq, Repr

/-- The object that `NewDefaultClientOption` allocates (`Caller` is the zero value). -/
def NewDefaultClientOption : ClientOption :=
  { DialTimeout := defaultDialTimeout
    KeepAlive := defaultKeepAlive
    KeepAliveTimeout := defaultKeepAliveTimeout
    Caller := "" }

/-- A non-nil `*ClientOption`: the address of an options object. -/
abbrev Ptr := Nat

/-- The store of `ClientOption` objects, by address. -/
abbrev Heap := Ptr → ClientOption

/-- Assignment through a pointer: `p.Caller = v`. -/
def Heap.setCaller (h : Heap) (p : Ptr) (v : String) : Heap :=
  fun q => if q = p then { h p with Caller := v } else h q

/-- A Go `error` value that is not nil. -/
structure GoError where
  msg : String
deriving DecidableEq, Repr

/-! ## The standard `context` package and gRPC `metadata` -/

/-- The type `metadata.MD`, a map from keys to lists of values. -/
abbrev MD := List (String × List String)

/-- Keys of context values: the private key type of the outgoing gRPC metadata,
or any other key. -/
inductive CtxKey
  | mdOutgoingKey
  | other (name : String)
deriving DecidableEq, Repr

/-- Context values: the record `rawMD` that the metadata package stores (the map and
the key-value lists appended later), or any other value. -/
inductive CtxValue
  | rawMD (md : MD) (added : List (List String))
  | other (v : String)
deriving DecidableEq, Repr

/-- A `context.Context`, as the tree of derivations the standard library builds:
`Background`, a `cancelCtx` (WithCancel), a `timerCtx` with its own deadline
(WithDeadline, WithTimeout), a `valueCtx` (WithValue). -/
inductive Context
  | background
  | withCancel (parent : Context)
  | withDeadline (parent : Context) (d : Time)
  | withValue (parent : Context) (key : CtxKey) (val : CtxValue)
deriving DecidableEq, Repr

/-- Method `Deadline`: a timerCtx answers with its own deadline, every other
derived context asks its parent, the background context has none. -/
def Context.Deadline : Context → Option Time
  | .background => none
  | .withCancel p => p.Deadline
  | .withDeadline _ d => some d
  | .withValue p _ _ => p.Deadline

/-- Method `Value`: a valueCtx answers for its own key, every other derived
context asks its parent. -/
def Context.Value : Context → CtxKey → Option CtxValue
  | .background, _ => none
  | .withCancel p, k => p.Value k
  | .withDeadline p _, k => p.Value k
  | .withValue p k' v, k => if k = k' then some v else p.Value k

/-- A `context.CancelFunc`: the closure that cancels the context it was returned with. -/
structure CancelFunc where
  target : Context
deriving DecidableEq, Repr

/-- Function `context.WithCancel`. -/
def WithCancel (parent : Context) : Context × CancelFunc :=
  (.withCancel parent, ⟨.withCancel parent⟩)

/-- Function `context.WithDeadline`: when the parent's deadline is already before `d`
the result is `WithCancel(parent)`; otherwise a timerCtx with deadline `d`. -/
def WithDeadline (parent : Context) (d : Time) : Context × CancelFunc :=
  match parent.Deadline with
  | some cur => if cur < d then WithCancel parent else (.withDeadline parent d, ⟨.withDeadline parent d⟩)
  | none => (.withDeadline parent d, ⟨.withDeadline parent d⟩)

/-- Function `context.WithTimeout`: `WithDeadline(parent, time.Now().Add(timeout))`,
with `now` the clock reading. -/
def WithTimeout (now : Time) (parent : Context) (timeout : Duration) : Context × CancelFunc :=
  WithDeadline parent (now + timeout)

/-- Lower-casing of a key, `strings.ToLower`. -/
def toLowerKey (k : String) : String := String.mk (k.data.map Char.toLower)

/-- Function `metadata.New` on a map with the single entry `k ↦ v`: the key is
lower-cased and mapped to the one-element list of values. -/
def metadata_New (k v : String) : MD := [(toLowerKey k, [v])]

/-- Function `metadata.NewOutgoingContext`: stores `rawMD{md: md}` under the outgoing
key, hiding whatever the parent stored there. -/
def NewOutgoingContext (ctx : Context) (md : MD) : Context :=
  .withValue ctx .mdOutgoingKey (.rawMD md [])

/-- The outgoing metadata record of a context, as `metadata.FromOutgoingContext`
finds it: the value under the outgoing key. -/
def outgoingRaw (ctx : Context) : Option CtxValue := ctx.Value .mdOutgoingKey

/-! ## External collaborators -/

/-- The types that client.go imports and never looks inside: the request and
response messages of the generated API (as the pointers the Go code passes
around), gRPC call options, the TLS configuration and transport credentials,
the gRPC connection, the target profile of the security-config provider, the
logger, and the state of the world outside the process. -/
structure ExtTypes where
  NotificationTypesRequest : Type
  NotificationTypesResponse : Type
  CreateNotificationRequest : Type
  NotificationResponse : Type
  GetNotificationRequest : Type
  GetNotificationsRequest : Type
  NotificationsResponse : Type
  DeleteNotificationRequest : Type
  DeleteResponse : Type
  CallOption : Type
  TLSConfig : Type
  TransportCredentials : Type
  ClientConn : Type
  ConfigTarget : Type
  AppLogger : Type
  World : Type

/-- A `grpc.DialOption`; client.go builds only `grpc.WithTransportCredentials`. -/
inductive DialOption (T : ExtTypes)
  | WithTransportCredentials (creds : T.TransportCredentials)

/-- The shape of one method of the generated stub: from the context, the request
and the call options, in a state of the world, to the pair (response, error)
and the next state.  The response is a pointer and may be nil. -/
abbrev RPC (T : ExtTypes) (Q R : Type) :=
  Context → Q → List T.CallOption → T.World → (Option R × Option GoError) × T.World

/-- The interface `api.NotificationsClient` (the generated stub). -/
structure ApiNotificationsClient (T : ExtTypes) where
  GetNotificationTypes : RPC T T.NotificationTypesRequest T.NotificationTypesResponse
  CreateNotification : RPC T T.CreateNotificationRequest T.NotificationResponse
  GetNotification : RPC T T.GetNotificationRequest T.NotificationResponse
  GetNotifications : RPC T T.GetNotificationsRequest T.NotificationsResponse
  DeleteNotification : RPC T T.DeleteNotificationRequest T.DeleteResponse

/-- The behaviour of the external functions that client.go calls. -/
structure Ext (T : ExtTypes) where
  /-- Function `os.Getenv`: the value of a variable, empty when it is unset. -/
  Getenv : String → String
  /-- Constant `config.NOTIFICATIONS_CLIENT`. -/
  NOTIFICATIONS_CLIENT : T.ConfigTarget
  /-- Function `config.SetupTLSConfig`, applied to options with the given target. -/
  SetupTLSConfig : T.ConfigTarget → T.World → (T.TLSConfig × Option GoError) × T.World
  /-- Function `credentials.NewTLS`. -/
  NewTLS : T.TLSConfig → T.TransportCredentials
  /-- Function `grpc.Dial`. -/
  Dial : String → List (DialOption T) → T.World → (T.ClientConn × Option GoError) × T.World
  /-- Function `api.NewNotificationsClient`. -/
  NewNotificationsClient : T.ClientConn → ApiNotificationsClient T
  /-- Method `Close` of `*grpc.ClientConn`. -/
  ConnClose : T.ClientConn → T.World → Option GoError × T.World

/-- What a function does to the outside, in order: log lines, the call of the
security-config provider, the dial, closing the connection, the calls of the
stub (with exactly the arguments passed), and calls of a cancel function. -/
inductive Event (T : ExtTypes)
  | logError (msg : String) (err : GoError)
  | logInfo (msg : String) (fields : List (String × String))
  | setupTLS (target : T.ConfigTarget)
  | dial (addr : String) (opts : List (DialOption T))
  | connClose (conn : T.ClientConn)
  | rpcGetNotificationTypes (ctx : Context) (req : T.NotificationTypesRequest) (opts : List T.CallOption)
  | rpcCreateNotification (ctx : Context) (req : T.CreateNotificationRequest) (opts : List T.CallOption)
  | rpcGetNotification (ctx : Context) (req : T.GetNotificationRequest) (opts : List T.CallOption)
  | rpcGetNotifications (ctx : Context) (req : T.GetNotificationsRequest) (opts : List T.CallOption)
  | rpcDeleteNotification (ctx : Context) (req : T.DeleteNotificationRequest) (opts : List T.CallOption)
  | cancel (f : CancelFunc)

/-- The context handed to the stub, for an event that is a call of the stub. -/
def Event.stubCtx {T : ExtTypes} : Event T → Option Context
  | .rpcGetNotificationTypes c _ _ => some c
  | .rpcCreateNotification c _ _ => some c
  | .rpcGetNotification c _ _ => some c
  | .rpcGetNotifications c _ _ => some c
  | .rpcDeleteNotification c _ _ => some c
  | _ => none

/-- The contexts handed to the stub in a trace, in order. -/
def stubCtxs {T : ExtTypes} (tr : List (Event T)) : List Context :=
  tr.filterMap Event.stubCtx

/-- The calls of the stub in a trace, in order. -/
def stubCalls {T : ExtTypes} (tr : List (Event T)) : List (Event T) :=
  tr.filter fun e => e.stubCtx.isSome

/-- The addresses dialled in a trace, in order. -/
def dialledAddrs {T : ExtTypes} (tr : List (Event T)) : List String :=
  tr.filterMap fun e => match e with
    | .dial a _ => some a
    | _ => none

/-- The cancel functions invoked in a trace, in order. -/
def cancelCalls {T : ExtTypes} (tr : List (Event T)) : List CancelFunc :=
  tr.filterMap fun e => match e with
    | .cancel f => some f
    | _ => none

/-! ## client.go -/

/-- The struct `notificationsClient`; `opts` is the pointer it was built with. -/
structure notificationsClient (T : ExtTypes) where
  logger : T.AppLogger
  client : ApiNotificationsClient T
  conn : T.ClientConn
  opts : Ptr

/-- The outcome of `NewClient`: the returned pair (client pointer, error), the
store (the options object may have been written), the world and the trace. -/
structure NewClientResult (T : ExtTypes) where
  client : Option (notificationsClient T)
  err : Option GoError
  heap : Heap
  world : T.World
  trace : List (Event T)

/-- The two environment look-ups of `NewClient` with their fall-backs, and the
address `fmt.Sprintf("%s:%s", serviceHost, servicePort)`. -/
def servicePort {T : ExtTypes} (X : Ext T) : String :=
  if X.Getenv "NOTIFICATIONS_SERVICE_PORT" = "" then DEFAULT_SERVICE_PORT
  else X.Getenv "NOTIFICATIONS_SERVICE_PORT"

/-- The host that `NewClient` resolves. -/
def serviceHost {T : ExtTypes} (X : Ext T) : String :=
  if X.Getenv "NOTIFICATIONS_SERVICE_HOST" = "" then DEFAULT_SERVICE_HOST
  else X.Getenv "NOTIFICATIONS_SERVICE_HOST"

/-- The address that `NewClient` formats. -/
def serviceAddr {T : ExtTypes} (X : Ext T) : String :=
  serviceHost X ++ ":" ++ servicePort X

/-- Function `NewClient(logger, clientOpts)`, with `clientOpts` a non-nil pointer. -/
def NewClient {T : ExtTypes} (X : Ext T) (logger : T.AppLogger) (clientOpts : Ptr)
    (heap : Heap) (w : T.World) : NewClientResult T :=
  let heap1 : Heap :=
    if (heap clientOpts).Caller = "" then heap.setCaller clientOpts DefaultClientName else heap
  match X.SetupTLSConfig X.NOTIFICATIONS_CLIENT w with
  | ((_, some err), w1) =>
      { client := none, err := some err, heap := heap1, world := w1
        trace := [.setupTLS X.NOTIFICATIONS_CLIENT,
                  .logError "error setting offers service client TLS" err] }
  | ((tlsConfig, none), w1) =>
      let tlsCreds := X.NewTLS tlsConfig
      let opts : List (DialOption T) := [.WithTransportCredentials tlsCreds]
      match X.Dial (serviceAddr X) opts w1 with
      | ((_, some err), w2) =>
          { client := none, err := some err, heap := heap1, world := w2
            trace := [.setupTLS X.NOTIFICATIONS_CLIENT, .dial (serviceAddr X) opts,
                      .logError "notifications client failed to connect" err] }
      | ((conn, none), w2) =>
          let client := X.NewNotificationsClient conn
          { client := some { client := client, logger := logger, conn := conn, opts := clientOpts }
            err := none, heap := heap1, world := w2
            trace := [.setupTLS X.NOTIFICATIONS_CLIENT, .dial (serviceAddr X) opts,
                      .logInfo "notifications client connected"
                        [("host", serviceHost X), ("port", servicePort X)]] }

/-- Method `contextWithOptions(ctx, opts)`.  As in the source, the parameter `opts`
is not used: the method reads `nc.opts`. -/
def notificationsClient.contextWithOptions {T : ExtTypes} (nc : notificationsClient T)
    (heap : Heap) (now : Time) (ctx : Context) (_opts : Ptr) : Context × CancelFunc :=
  let r := WithTimeout now ctx (heap nc.opts).DialTimeout
  if (heap nc.opts).Caller ≠ "" then
    let md := metadata_New "service-client" (heap nc.opts).Caller
    (NewOutgoingContext r.1 md, r.2)
  else r

/-- The outcome of one operation: the returned pair (response, error), the world
after the call and the trace. -/
structure CallResult (T : ExtTypes) (R : Type) where
  resp : Option R
  err : Option GoError
  world : T.World
  trace : List (Event T)

/-- Method `GetNotificationTypes`: derive the context, defer `cancel`, return what
the stub returns; the deferred cancel runs after the stub call. -/
def notificationsClient.GetNotificationTypes {T : ExtTypes} (nc : notificationsClient T)
    (heap : Heap) (now : Time) (ctx : Context) (req : T.NotificationTypesRequest)
    (_opts : List T.CallOption) (w : T.World) : CallResult T T.NotificationTypesResponse :=
  let d := nc.contextWithOptions heap now ctx nc.opts
  let r := nc.client.GetNotificationTypes d.1 req [] w
  { resp := r.1.1, err := r.1.2, world := r.2
    trace := [.rpcGetNotificationTypes d.1 req [], .cancel d.2] }

/-- Method `CreateNotification`. -/
def notificationsClient.CreateNotification {T : ExtTypes} (nc : notificationsClient T)
    (heap : Heap) (now : Time) (ctx : Context) (req : T.CreateNotificationRequest)
    (_opts : List T.CallOption) (w : T.World) : CallResult T T.NotificationResponse :=
  let d := nc.contextWithOptions heap now ctx nc.opts
  let r := nc.client.CreateNotification d.1 req [] w
  { resp := r.1.1, err := r.1.2, world := r.2
    trace := [.rpcCreateNotification d.1 req [], .cancel d.2] }

/-- Method `GetNotification`. -/
def notificationsClient.GetNotification {T : ExtTypes} (nc : notificationsClient T)
    (heap : Heap) (now : Time) (ctx : Context) (req : T.GetNotificationRequest)
    (_opts : List T.CallOption) (w : T.World) : CallResult T T.NotificationResponse :=
  let d := nc.contextWithOptions heap now ctx nc.opts
  let r := nc.client.GetNotification d.1 req [] w
  { resp := r.1.1, err := r.1.2, world := r.2
    trace := [.rpcGetNotification d.1 req [], .cancel d.2] }

/-- Method `GetNotifications`. -/
def notificationsClient.GetNotifications {T : ExtTypes} (nc : notificationsClient T)
    (heap : Heap) (now : Time) (ctx : Context) (req : T.GetNotificationsRequest)
    (_opts : List T.CallOption) (w : T.World) : CallResult T T.NotificationsResponse :=
  let d := nc.contextWithOptions heap now ctx nc.opts
  let r := nc.client.GetNotifications d.1 req [] w
  { resp := r.1.1, err := r.1.2, world := r.2
    trace := [.rpcGetNotifications d.1 req [], .cancel d.2] }

/-- Method `DeleteNotification`. -/
def notificationsClient.DeleteNotification {T : ExtTypes} (nc : notificationsClient T)
    (heap : Heap) (now : Time) (ctx : Context) (req : T.DeleteNotificationRequest)
    (_opts : List T.CallOption) (w : T.World) : CallResult T T.DeleteResponse :=
  let d := nc.contextWithOptions heap now ctx nc.opts
  let r := nc.client.DeleteNotification d.1 req [] w
  { resp := r.1.1, err := r.1.2, world := r.2
    trace := [.rpcDeleteNotification d.1 req [], .cancel d.2] }

/-- Method `Close`: closes the connection; the error of the connection is logged
and returned, otherwise nil.  Returns (error, world, trace). -/
def notificationsClient.Close {T : ExtTypes} (X : Ext T) (nc : notificationsClient T)
    (w : T.World) : Option GoError × T.World × List (Event T) :=
  match X.ConnClose nc.conn w with
  | (some err, w1) =>
      (some err, w1, [.connClose nc.conn,
                      .logError "error closing notifications client connection" err])
  | (none, w1) => (none, w1, [.connClose nc.conn])

/-! ## The contract of a closed gRPC connection -/

/-- A stub method refuses in the worlds where `closed` holds: it returns a nil
response and an error, and the world it leaves is still one where `closed` holds. -/
def refusesWhen {T : ExtTypes} {Q R : Type} (m : RPC T Q R) (closed : T.World → Prop) : Prop :=
  ∀ (ctx : Context) (req : Q) (callOpts : List T.CallOption) (w : T.World), closed w →
    (m ctx req callOpts w).1.1 = none ∧ (m ctx req callOpts w).1.2 ≠ none ∧
    closed (m ctx req callOpts w).2

/-- What gRPC promises about a closed connection, for the collaborators `X`, with
`closed conn w` reading "in the world `w` the connection `conn` is closed":
a `Close` of the connection that returns nil leaves it closed, and every method
of the stub that `api.NewNotificationsClient` builds on a connection refuses
while that connection is closed (the call goes through the connection, which
fails it with its "client connection is closing" error). -/
structure ClosedConnContract {T : ExtTypes} (X : Ext T)
    (closed : T.ClientConn → T.World → Prop) : Prop where
  close : ∀ (conn : T.ClientConn) (w : T.World),
    (X.ConnClose conn w).1 = none → closed conn (X.ConnClose conn w).2
  getNotificationTypes : ∀ conn : T.ClientConn,
    refusesWhen (X.NewNotificationsClient conn).GetNotificationTypes (closed conn)
  createNotification : ∀ conn : T.ClientConn,
    refusesWhen (X.NewNotificationsClient conn).CreateNotification (closed conn)
  getNotification : ∀ conn : T.ClientConn,
    refusesWhen (X.NewNotificationsClient conn).GetNotification (closed conn)
  getNotifications : ∀ conn : T.ClientConn,
    refusesWhen (X.NewNotificationsClient conn).GetNotifications (closed conn)
  deleteNotification : ∀ conn : T.ClientConn,
    refusesWhen (X.NewNotificationsClient conn).DeleteNotification (closed conn)

/-! ## Test doubles

Concrete collaborators on which the theorems are evaluated: messages are strings,
the world records whether the connection was closed and how many calls the
remote side served. -/

/-- The world of the test doubles. -/
structure DemoWorld where
  closed : Bool
  served : Nat
deriving DecidableEq, Repr

/-- The external types of the test doubles. -/
@[reducible] def demoTypes : ExtTypes where
  NotificationTypesRequest := String
  NotificationTypesResponse := String
  CreateNotificationRequest := String
  NotificationResponse := String
  GetNotificationRequest := String
  GetNotificationsRequest := String
  NotificationsResponse := String
  DeleteNotificationRequest := String
  DeleteResponse := String
  CallOption := Nat
  TLSConfig := Unit
  TransportCredentials := Unit
  ClientConn := Nat
  ConfigTarget := String
  AppLogger := Unit
  World := DemoWorld

/-- The error of a call on a closed channel, in the test doubles. -/
def closingError : GoError := ⟨"grpc: the client connection is closing"⟩

/-- A stub method that refuses once the connection is closed and otherwise answers
with the request it was given and counts the call. -/
def channelRPC : RPC demoTypes String String :=
  fun _ req _ (w : DemoWorld) =>
    if w.closed then ((none, some closingError), w)
    else ((some req, none), { w with served := w.served + 1 })

/-- A stub whose methods all refuse on a closed connection. -/
def channelStub : ApiNotificationsClient demoTypes :=
  ⟨channelRPC, channelRPC, channelRPC, channelRPC, channelRPC⟩

/-- Collaborators that all succeed, with an empty environment; `stub` is what
`api.NewNotificationsClient` builds. -/
def demoExt (stub : ApiNotificationsClient demoTypes) : Ext demoTypes where
  Getenv := fun _ => ""
  NOTIFICATIONS_CLIENT := "notifications-client"
  SetupTLSConfig := fun _ w => (((), none), w)
  NewTLS := fun _ => ()
  Dial := fun _ _ w => ((7, none), w)
  NewNotificationsClient := fun _ => stub
  ConnClose := fun _ (w : DemoWorld) => (none, { w with closed := true })

/-- The initial world of the test doubles. -/
def demoWorld : DemoWorld := ⟨false, 0⟩

/-- A store in which every options object is the default one with the given caller. -/
def demoHeap (caller : String) : Heap :=
  fun _ => { NewDefaultClientOption with Caller := caller }

/-- The client that `NewClient` builds from `demoExt stub` for the options at address 0. -/
def demoClient (stub : ApiNotificationsClient demoTypes) : notificationsClient demoTypes :=
  { logger := (), client := stub, conn := 7, opts := 0 }

/-! ## Lemmas on the embedding -/

theorem DefaultClientName_ne_empty : DefaultClientName ≠ "" := by decide

theorem toLowerKey_service_client : toLowerKey "service-client" = "service-client" := by decide

theorem WithTimeout_deadline (now : Time) (ctx : Context) (t : Duration) :
    (WithTimeout now ctx t).1.Deadline =
      some (match ctx.Deadline with
            | some cur => if cur < now + t then cur else now + t
            | none => now + t) := by
  unfold WithTimeout WithDeadline
  cases h : ctx.Deadline with
  | none => simp [Context.Deadline]
  | some cur =>
    by_cases hlt : cur < now + t
    · simp [hlt, WithCancel, Context.Deadline, h]
    · simp [hlt, Context.Deadline]

theorem WithTimeout_value (now : Time) (ctx : Context) (t : Duration) (k : CtxKey) :
    (WithTimeout now ctx t).1.Value k = ctx.Value k := by
  unfold WithTimeout WithDeadline
  cases h : ctx.Deadline with
  | none => simp [Context.Value]
  | some cur =>
    by_cases hlt : cur < now + t
    · simp [hlt, WithCancel, Context.Value]
    · simp [hlt, Context.Value]

theorem contextWithOptions_deadline {T : ExtTypes} (nc : notificationsClient T) (heap : Heap)
    (now : Time) (ctx : Context) (o : Ptr) :
    (nc.contextWithOptions heap now ctx o).1.Deadline =
      some (match ctx.Deadline with
            | some cur => if cur < now + (heap nc.opts).DialTimeout then cur
                          else now + (heap nc.opts).DialTimeout
            | none => now + (heap nc.opts).DialTimeout) := by
  unfold notificationsClient.contextWithOptions
  by_cases hc : (heap nc.opts).Caller = ""
  · simp [hc, WithTimeout_deadline]
  · simp [hc, NewOutgoingContext, Context.Deadline, WithTimeout_deadline]

theorem contextWithOptions_outgoing {T : ExtTypes} (nc : notificationsClient T) (heap : Heap)
    (now : Time) (ctx : Context) (o : Ptr) :
    outgoingRaw (nc.contextWithOptions heap now ctx o).1 =
      if (heap nc.opts).Caller = "" then outgoingRaw ctx
      else some (.rawMD [("service-client", [(heap nc.opts).Caller])] []) := by
  unfold notificationsClient.contextWithOptions outgoingRaw
  by_cases hc : (heap nc.opts).Caller = ""
  · simp [hc, WithTimeout_value]
  · simp [hc, NewOutgoingContext, Context.Value, metadata_New, toLowerKey_service_client]

theorem NewClient_client_opts {T : ExtTypes} (X : Ext T) (logger : T.AppLogger) (p : Ptr)
    (heap : Heap) (w : T.World) (nc : notificationsClient T)
    (h : (NewClient X logger p heap w).client = some nc) : nc.opts = p := by
  unfold NewClient at h
  rcases hs : X.SetupTLSConfig X.NOTIFICATIONS_CLIENT w with ⟨⟨tls, e1⟩, w1⟩
  rw [hs] at h
  cases e1 with
  | some e => simp at h
  | none =>
    simp only at h
    rcases hd : X.Dial (serviceAddr X) [.WithTransportCredentials (X.NewTLS tls)] w1
      with ⟨⟨conn, e2⟩, w2⟩
    rw [hd] at h
    cases e2 with
    | some e => simp at h
    | none =>
      simp only [Option.some.injEq] at h
      rw [← h]

theorem NewClient_heap {T : ExtTypes} (X : Ext T) (logger : T.AppLogger) (p : Ptr)
    (heap : Heap) (w : T.World) :
    (NewClient X logger p heap w).heap =
      if (heap p).Caller = "" then heap.setCaller p DefaultClientName else heap := by
  unfold NewClient
  rcases hs : X.SetupTLSConfig X.NOTIFICATIONS_CLIENT w with ⟨⟨tls, e1⟩, w1⟩
  cases e1 with
  | some e => simp
  | none =>
    simp only
    rcases hd : X.Dial (serviceAddr X) [.WithTransportCredentials (X.NewTLS tls)] w1
      with ⟨⟨conn, e2⟩, w2⟩
    cases e2 <;> simp

theorem NewClient_heap_caller {T : ExtTypes} (X : Ext T) (logger : T.AppLogger) (p : Ptr)
    (heap : Heap) (w : T.World) :
    ((NewClient X logger p heap w).heap p).Caller =
      if (heap p).Caller = "" then DefaultClientName else (heap p).Caller := by
  rw [NewClient_heap]
  by_cases hc : (heap p).Caller = ""
  · simp [hc, Heap.setCaller]
  · simp [hc]

theorem NewClient_client_stub {T : ExtTypes} (X : Ext T) (logger : T.AppLogger) (p : Ptr)
    (heap : Heap) (w : T.World) (nc : notificationsClient T)
    (h : (NewClient X logger p heap w).client = some nc) :
    nc.client = X.NewNotificationsClient nc.conn := by
  unfold NewClient at h
  rcases hs : X.SetupTLSConfig X.NOTIFICATIONS_CLIENT w with ⟨⟨tls, e1⟩, w1⟩
  rw [hs] at h
  cases e1 with
  | some e => simp at h
  | none =>
    simp only at h
    rcases hd : X.Dial (serviceAddr X) [.WithTransportCredentials (X.NewTLS tls)] w1
      with ⟨⟨conn, e2⟩, w2⟩
    rw [hd] at h
    cases e2 with
    | some e => simp at h
    | none =>
      simp only [Option.some.injEq] at h
      rw [← h]

theorem Close_nil {T : ExtTypes} (X : Ext T) (nc : notificationsClient T) (w : T.World)
    (h : (nc.Close X w).1 = none) :
    (X.ConnClose nc.conn w).1 = none ∧ (nc.Close X w).2.1 = (X.ConnClose nc.conn w).2 := by
  rcases hc : X.ConnClose nc.conn w with ⟨e, w2⟩
  cases e with
  | some err => simp [notificationsClient.Close, hc] at h
  | none => simp [notificationsClient.Close, hc]

theorem channelRPC_refuses : refusesWhen channelRPC (fun w : DemoWorld => w.closed = true) := by
  intro ctx req callOpts w hw
  simp [channelRPC, hw]

theorem demoExt_channelStub_contract :
    ClosedConnContract (demoExt channelStub) (fun _ (w : DemoWorld) => w.closed = true) where
  close := fun _ _ _ => rfl
  getNotificationTypes := fun _ => channelRPC_refuses
  createNotification := fun _ => channelRPC_refuses
  getNotification := fun _ => channelRPC_refuses
  getNotifications := fun _ => channelRPC_refuses
  deleteNotification := fun _ => channelRPC_refuses

theorem stubCtxs_GetNotificationTypes {T : ExtTypes} (nc : notificationsClient T) (heap : Heap)
    (now : Time) (ctx : Context) (req : T.NotificationTypesRequest) (o : List T.CallOption)
    (w : T.World) :
    stubCtxs (nc.GetNotificationTypes heap now ctx req o w).trace =
      [(nc.contextWithOptions heap now ctx nc.opts).1] := by
  simp [stubCtxs, notificationsClient.GetNotificationTypes, Event.stubCtx]

theorem stubCtxs_CreateNotification {T : ExtTypes} (nc : notificationsClient T) (heap : Heap)
    (now : Time) (ctx : Context) (req : T.CreateNotificationRequest) (o : List T.CallOption)
    (w : T.World) :
    stubCtxs (nc.CreateNotification heap now ctx req o w).trace =
      [(nc.contextWithOptions heap now ctx nc.opts).1] := by
  simp [stubCtxs, notificationsClient.CreateNotification, Event.stubCtx]

theorem stubCtxs_GetNotification {T : ExtTypes} (nc : notificationsClient T) (heap : Heap)
    (now : Time) (ctx : Context) (req : T.GetNotificationRequest) (o : List T.CallOption)
    (w : T.World) :
    stubCtxs (nc.GetNotification heap now ctx req o w).trace =
      [(nc.contextWithOptions heap now ctx nc.opts).1] := by
  simp [stubCtxs, notificationsClient.GetNotification, Event.stubCtx]

theorem stubCtxs_GetNotifications {T : ExtTypes} (nc : notificationsClient T) (heap : Heap)
    (now : Time) (ctx : Context) (req : T.GetNotificationsRequest) (o : List T.CallOption)
    (w : T.World) :
    stubCtxs (nc.GetNotifications heap now ctx req o w).trace =
      [(nc.contextWithOptions heap now ctx nc.opts).1] := by
  simp [stubCtxs, notificationsClient.GetNotifications, Event.stubCtx]

theorem stubCtxs_DeleteNotification {T : ExtTypes} (nc : notificationsClient T) (heap : Heap)
    (now : Time) (ctx : Context) (req : T.DeleteNotificationRequest) (o : List T.CallOption)
    (w : T.World) :
    stubCtxs (nc.DeleteNotification heap now ctx req o w).trace =
      [(nc.contextWithOptions heap now ctx nc.opts).1] := by
  simp [stubCtxs, notificationsClient.DeleteNotification, Event.stubCtx]

/-! ## The claims -/

/-- C1: for a client that `NewClient` returned, used while the caller identity of its
options object is as `NewClient` left it, each of the five operations hands the
stub exactly one context, and the outgoing metadata record of that context is the
map with the single key "service-client" (and nothing appended), whose value is
the caller the options had on entry to `NewClient` when that was non-empty and
`DefaultClientName` when it was empty; whatever the inbound context carried. -/
theorem service_client_metadata_of_NewClient {T : ExtTypes} (X : Ext T) (logger : T.AppLogger)
    (p : Ptr) (heap : Heap) (w : T.World) (nc : notificationsClient T)
    (hnew : (NewClient X logger p heap w).client = some nc)
    (heap' : Heap)
    (hkeep : (heap' p).Caller = ((NewClient X logger p heap w).heap p).Caller)
    (now : Time) (ctx : Context) (callOpts : List T.CallOption) (w' : T.World)
    (q1 : T.NotificationTypesRequest) (q2 : T.CreateNotificationRequest)
    (q3 : T.GetNotificationRequest) (q4 : T.GetNotificationsRequest)
    (q5 : T.DeleteNotificationRequest) :
    let caller := if (heap p).Caller = "" then DefaultClientName else (heap p).Caller
    let md : Option CtxValue := some (.rawMD [("service-client", [caller])] [])
    (stubCtxs (nc.GetNotificationTypes heap' now ctx q1 callOpts w').trace).map outgoingRaw = [md] ∧
    (stubCtxs (nc.CreateNotification heap' now ctx q2 callOpts w').trace).map outgoingRaw = [md] ∧
    (stubCtxs (nc.GetNotification heap' now ctx q3 callOpts w').trace).map outgoingRaw = [md] ∧
    (stubCtxs (nc.GetNotifications heap' now ctx q4 callOpts w').trace).map outgoingRaw = [md] ∧
    (stubCtxs (nc.DeleteNotification heap' now ctx q5 callOpts w').trace).map outgoingRaw = [md] := by
  have hp : nc.opts = p := NewClient_client_opts X logger p heap w nc hnew
  have hc : (heap' nc.opts).Caller =
      if (heap p).Caller = "" then DefaultClientName else (heap p).Caller := by
    rw [hp, hkeep, NewClient_heap_caller]
  have hne : (heap' nc.opts).Caller ≠ "" := by
    rw [hc]
    by_cases h0 : (heap p).Caller = ""
    · simp [h0, DefaultClientName_ne_empty]
    · simp [h0]
  have key : outgoingRaw (nc.contextWithOptions heap' now ctx nc.opts).1 =
      some (.rawMD [("service-client",
        [if (heap p).Caller = "" then DefaultClientName else (heap p).Caller])] []) := by
    rw [contextWithOptions_outgoing, if_neg hne, hc]
  intro caller md
  rw [stubCtxs_GetNotificationTypes, stubCtxs_CreateNotification,
    stubCtxs_GetNotification, stubCtxs_GetNotifications, stubCtxs_DeleteNotification]
  simp [key, caller, md]

/-- Witness of C1: a client built from options without a caller, called with an inbound
context that already carries outgoing metadata. -/
theorem service_client_metadata_of_NewClient_witness :
    (NewClient (demoExt channelStub) () 0 (demoHeap "") demoWorld).client
      = some (demoClient channelStub) ∧
    (stubCtxs ((demoClient channelStub).GetNotificationTypes
        (NewClient (demoExt channelStub) () 0 (demoHeap "") demoWorld).heap 3
        (NewOutgoingContext .background [("service-client", ["someone-else"]), ("x", ["y"])])
        "q" [1, 2] demoWorld).trace).map outgoingRaw
      = [some (.rawMD [("service-client", ["comfforts-notifications-client"])] [])] :=
  ⟨rfl, (service_client_metadata_of_NewClient (demoExt channelStub) () 0 (demoHeap "") demoWorld
    (demoClient channelStub) rfl
    (NewClient (demoExt channelStub) () 0 (demoHeap "") demoWorld).heap rfl 3
    (NewOutgoingContext .background [("service-client", ["someone-else"]), ("x", ["y"])])
    [1, 2] demoWorld "q" "q" "q" "q" "q").1⟩

/-- C2 as stated fails: with a dial timeout of five seconds, a clock reading of 0 and an
inbound context whose own deadline is 1, the context handed to the stub has
deadline 1, not 0 + 5 s. -/
theorem deadline_exactly_now_plus_timeout_fails :
    ¬ ∀ (nc : notificationsClient demoTypes) (heap : Heap) (now : Time) (ctx : Context)
        (req : String) (callOpts : List Nat) (w : DemoWorld),
        (stubCtxs (nc.GetNotificationTypes heap now ctx req callOpts w).trace).map
          Context.Deadline = [some (now + (heap nc.opts).DialTimeout)] := by
  intro h
  have h1 := h (demoClient channelStub) (demoHeap "c") 0 (.withDeadline .background 1) "q" []
    demoWorld
  rw [stubCtxs_GetNotificationTypes] at h1
  simp only [List.map_cons, List.map_nil, contextWithOptions_deadline, Context.Deadline] at h1
  revert h1
  decide

/-- C2, amended: for each of the five operations the context handed to the stub has a
deadline, equal to `now + DialTimeout` when the inbound context has no deadline or
one that is not earlier, and equal to the inbound context's own deadline when
that is earlier than `now + DialTimeout`. -/
theorem deadline_of_call_context {T : ExtTypes} (nc : notificationsClient T) (heap : Heap)
    (now : Time) (ctx : Context) (callOpts : List T.CallOption) (w : T.World)
    (q1 : T.NotificationTypesRequest) (q2 : T.CreateNotificationRequest)
    (q3 : T.GetNotificationRequest) (q4 : T.GetNotificationsRequest)
    (q5 : T.DeleteNotificationRequest) :
    let limit : Time := now + (heap nc.opts).DialTimeout
    let d : Option Time := some (match ctx.Deadline with
      | some cur => if cur < limit then cur else limit
      | none => limit)
    (stubCtxs (nc.GetNotificationTypes heap now ctx q1 callOpts w).trace).map Context.Deadline = [d] ∧
    (stubCtxs (nc.CreateNotification heap now ctx q2 callOpts w).trace).map Context.Deadline = [d] ∧
    (stubCtxs (nc.GetNotification heap now ctx q3 callOpts w).trace).map Context.Deadline = [d] ∧
    (stubCtxs (nc.GetNotifications heap now ctx q4 callOpts w).trace).map Context.Deadline = [d] ∧
    (stubCtxs (nc.DeleteNotification heap now ctx q5 callOpts w).trace).map Context.Deadline = [d] := by
  intro limit d
  rw [stubCtxs_GetNotificationTypes, stubCtxs_CreateNotification,
    stubCtxs_GetNotification, stubCtxs_GetNotifications, stubCtxs_DeleteNotification]
  simp [contextWithOptions_deadline, d, limit]

/-- C3: for each of the five operations the context handed to the stub has a deadline
`d`; `d` is never later than `now + DialTimeout`, and never later than the inbound
context's own deadline when it has one. -/
theorem call_deadline_bounded {T : ExtTypes} (nc : notificationsClient T) (heap : Heap)
    (now : Time) (ctx : Context) (callOpts : List T.CallOption) (w : T.World)
    (q1 : T.NotificationTypesRequest) (q2 : T.CreateNotificationRequest)
    (q3 : T.GetNotificationRequest) (q4 : T.GetNotificationsRequest)
    (q5 : T.DeleteNotificationRequest) :
    let bounded := fun (cs : List Context) =>
      ∃ d : Time, cs.map Context.Deadline = [some d] ∧
        d ≤ now + (heap nc.opts).DialTimeout ∧
        ∀ cur : Time, ctx.Deadline = some cur → d ≤ cur
    bounded (stubCtxs (nc.GetNotificationTypes heap now ctx q1 callOpts w).trace) ∧
    bounded (stubCtxs (nc.CreateNotification heap now ctx q2 callOpts w).trace) ∧
    bounded (stubCtxs (nc.GetNotification heap now ctx q3 callOpts w).trace) ∧
    bounded (stubCtxs (nc.GetNotifications heap now ctx q4 callOpts w).trace) ∧
    bounded (stubCtxs (nc.DeleteNotification heap now ctx q5 callOpts w).trace) := by
  have key : ∃ d : Time,
      [(nc.contextWithOptions heap now ctx nc.opts).1].map Context.Deadline = [some d] ∧
        d ≤ now + (heap nc.opts).DialTimeout ∧
        ∀ cur : Time, ctx.Deadline = some cur → d ≤ cur := by
    simp only [List.map_cons, List.map_nil, contextWithOptions_deadline]
    cases hd : ctx.Deadline with
    | none => exact ⟨_, rfl, le_refl _, fun cur hcur => by simp at hcur⟩
    | some c0 =>
      by_cases hlt : c0 < now + (heap nc.opts).DialTimeout
      · refine ⟨c0, by simp [hlt], le_of_lt hlt, fun cur hcur => ?_⟩
        exact le_of_eq (Option.some.inj hcur)
      · refine ⟨now + (heap nc.opts).DialTimeout, by simp [hlt], le_refl _, fun cur hcur => ?_⟩
        rw [← Option.some.inj hcur]
        exact not_lt.mp hlt
  intro bounded
  simp only [bounded, stubCtxs_GetNotificationTypes, stubCtxs_CreateNotification,
    stubCtxs_GetNotification, stubCtxs_GetNotifications, stubCtxs_DeleteNotification]
  exact ⟨key, key, key, key, key⟩

/-- Witness of C3: the caller's context expires at 20, the clock reads 10 and the dial
timeout is five seconds. -/
theorem call_deadline_bounded_witness :
    ∃ d : Time,
      (stubCtxs ((demoClient channelStub).GetNotificationTypes (demoHeap "c") 10
        (.withDeadline .background 20) "q" [] demoWorld).trace).map Context.Deadline = [some d] ∧
      d ≤ 10 + (demoHeap "c" (demoClient channelStub).opts).DialTimeout ∧
      ∀ cur : Time, Context.Deadline (.withDeadline .background 20) = some cur → d ≤ cur :=
  (call_deadline_bounded (demoClient channelStub) (demoHeap "c") 10
    (.withDeadline .background 20) [] demoWorld "q" "q" "q" "q" "q").1

/-- C4: each of the five operations calls the corresponding method of the stub exactly
once, with the derived context, the request it was given and no call option, and
returns exactly the pair (response, error) of that call; the world after the
operation is the world after that one call. -/
theorem operations_delegate_once {T : ExtTypes} (nc : notificationsClient T) (heap : Heap)
    (now : Time) (ctx : Context) (callOpts : List T.CallOption) (w : T.World)
    (q1 : T.NotificationTypesRequest) (q2 : T.CreateNotificationRequest)
    (q3 : T.GetNotificationRequest) (q4 : T.GetNotificationsRequest)
    (q5 : T.DeleteNotificationRequest) :
    let c := (nc.contextWithOptions heap now ctx nc.opts).1
    let r1 := nc.GetNotificationTypes heap now ctx q1 callOpts w
    let r2 := nc.CreateNotification heap now ctx q2 callOpts w
    let r3 := nc.GetNotification heap now ctx q3 callOpts w
    let r4 := nc.GetNotifications heap now ctx q4 callOpts w
    let r5 := nc.DeleteNotification heap now ctx q5 callOpts w
    (stubCalls r1.trace = [.rpcGetNotificationTypes c q1 []] ∧
      ((r1.resp, r1.err), r1.world) = nc.client.GetNotificationTypes c q1 [] w) ∧
    (stubCalls r2.trace = [.rpcCreateNotification c q2 []] ∧
      ((r2.resp, r2.err), r2.world) = nc.client.CreateNotification c q2 [] w) ∧
    (stubCalls r3.trace = [.rpcGetNotification c q3 []] ∧
      ((r3.resp, r3.err), r3.world) = nc.client.GetNotification c q3 [] w) ∧
    (stubCalls r4.trace = [.rpcGetNotifications c q4 []] ∧
      ((r4.resp, r4.err), r4.world) = nc.client.GetNotifications c q4 [] w) ∧
    (stubCalls r5.trace = [.rpcDeleteNotification c q5 []] ∧
      ((r5.resp, r5.err), r5.world) = nc.client.DeleteNotification c q5 [] w) := by
  intro c r1 r2 r3 r4 r5
  refine ⟨⟨?_, rfl⟩, ⟨?_, rfl⟩, ⟨?_, rfl⟩, ⟨?_, rfl⟩, ⟨?_, rfl⟩⟩ <;>
    simp [stubCalls, Event.stubCtx, r1, r2, r3, r4, r5, c,
      notificationsClient.GetNotificationTypes, notificationsClient.CreateNotification,
      notificationsClient.GetNotification, notificationsClient.GetNotifications,
      notificationsClient.DeleteNotification]

/-- C5: a client that `NewClient` returned has two states, told apart by its
connection: open, and closed once `Close` has returned nil; no operation leaves
the closed state.  Given the contract of a closed gRPC connection
(`ClosedConnContract`), after `Close` has returned nil the connection is closed,
and in every world where it is closed each of the five operations returns a nil
response and a non-nil error, the very error of the stub, never a success,
whatever the request, the inbound context and the options; the world it leaves
is again one where the connection is closed, so the same holds for every later
invocation. -/
theorem closed_client_operations_fail {T : ExtTypes} (X : Ext T)
    (closed : T.ClientConn → T.World → Prop) (hX : ClosedConnContract X closed)
    (logger : T.AppLogger) (p : Ptr) (heap0 : Heap) (w0 : T.World)
    (nc : notificationsClient T) (hnew : (NewClient X logger p heap0 w0).client = some nc)
    (w : T.World) (hclose : (nc.Close X w).1 = none) :
    closed nc.conn (nc.Close X w).2.1 ∧
    ∀ (w' : T.World) (heap : Heap) (now : Time) (ctx : Context)
      (callOpts : List T.CallOption)
      (q1 : T.NotificationTypesRequest) (q2 : T.CreateNotificationRequest)
      (q3 : T.GetNotificationRequest) (q4 : T.GetNotificationsRequest)
      (q5 : T.DeleteNotificationRequest), closed nc.conn w' →
      let c := (nc.contextWithOptions heap now ctx nc.opts).1
      let r1 := nc.GetNotificationTypes heap now ctx q1 callOpts w'
      let r2 := nc.CreateNotification heap now ctx q2 callOpts w'
      let r3 := nc.GetNotification heap now ctx q3 callOpts w'
      let r4 := nc.GetNotifications heap now ctx q4 callOpts w'
      let r5 := nc.DeleteNotification heap now ctx q5 callOpts w'
      (r1.resp = none ∧ r1.err ≠ none ∧ closed nc.conn r1.world ∧
        r1.err = (nc.client.GetNotificationTypes c q1 [] w').1.2) ∧
      (r2.resp = none ∧ r2.err ≠ none ∧ closed nc.conn r2.world ∧
        r2.err = (nc.client.CreateNotification c q2 [] w').1.2) ∧
      (r3.resp = none ∧ r3.err ≠ none ∧ closed nc.conn r3.world ∧
        r3.err = (nc.client.GetNotification c q3 [] w').1.2) ∧
      (r4.resp = none ∧ r4.err ≠ none ∧ closed nc.conn r4.world ∧
        r4.err = (nc.client.GetNotifications c q4 [] w').1.2) ∧
      (r5.resp = none ∧ r5.err ≠ none ∧ closed nc.conn r5.world ∧
        r5.err = (nc.client.DeleteNotification c q5 [] w').1.2) := by
  have hstub : nc.client = X.NewNotificationsClient nc.conn :=
    NewClient_client_stub X logger p heap0 w0 nc hnew
  have hc := Close_nil X nc w hclose
  refine ⟨?_, ?_⟩
  · rw [hc.2]
    exact hX.close nc.conn w hc.1
  · intro w' heap now ctx callOpts q1 q2 q3 q4 q5 hw' c r1 r2 r3 r4 r5
    have h1 := hX.getNotificationTypes nc.conn c q1 [] w' hw'
    have h2 := hX.createNotification nc.conn c q2 [] w' hw'
    have h3 := hX.getNotification nc.conn c q3 [] w' hw'
    have h4 := hX.getNotifications nc.conn c q4 [] w' hw'
    have h5 := hX.deleteNotification nc.conn c q5 [] w' hw'
    rw [← hstub] at h1 h2 h3 h4 h5
    exact ⟨⟨h1.1, h1.2.1, h1.2.2, rfl⟩, ⟨h2.1, h2.2.1, h2.2.2, rfl⟩, ⟨h3.1, h3.2.1, h3.2.2, rfl⟩,
      ⟨h4.1, h4.2.1, h4.2.2, rfl⟩, ⟨h5.1, h5.2.1, h5.2.2, rfl⟩⟩

/-- Witness of C5: with a stub that refuses on a closed connection, the client that
`NewClient` built is closed by `Close`, and `GetNotificationTypes` invoked after
it returns a nil response and an error. -/
theorem closed_client_operations_fail_witness :
    (NewClient (demoExt channelStub) () 0 (demoHeap "c") demoWorld).client
      = some (demoClient channelStub) ∧
    ((demoClient channelStub).Close (demoExt channelStub) demoWorld).1 = none ∧
    ((demoClient channelStub).GetNotificationTypes (demoHeap "c") 0 .background "q" []
        ((demoClient channelStub).Close (demoExt channelStub) demoWorld).2.1).resp = none ∧
    ((demoClient channelStub).GetNotificationTypes (demoHeap "c") 0 .background "q" []
        ((demoClient channelStub).Close (demoExt channelStub) demoWorld).2.1).err ≠ none :=
  have h := closed_client_operations_fail (demoExt channelStub)
    (fun _ (w : DemoWorld) => w.closed = true) demoExt_channelStub_contract
    () 0 (demoHeap "c") demoWorld (demoClient channelStub) rfl demoWorld rfl
  have h1 := (h.2 ((demoClient channelStub).Close (demoExt channelStub) demoWorld).2.1
    (demoHeap "c") 0 .background [] "q" "q" "q" "q" "q" h.1).1
  ⟨rfl, rfl, h1.1, h1.2.1⟩

/-- C6: `NewClient` returns either a client with a nil error or no client with an
error, never both and never neither.  When the security-config provider fails it
returns the provider's error and nothing was dialled (the world is the one the
provider left); when the dial fails it returns the dial error; when both succeed
the client holds the connection that was dialled, the stub built on that
connection and the pointer to the given options, whose object is the given one
with the caller defaulted. -/
theorem NewClient_client_or_error {T : ExtTypes} (X : Ext T) (logger : T.AppLogger) (p : Ptr)
    (heap : Heap) (w : T.World) :
    let r := NewClient X logger p heap w
    let t := X.SetupTLSConfig X.NOTIFICATIONS_CLIENT w
    let d := X.Dial (serviceAddr X) [.WithTransportCredentials (X.NewTLS t.1.1)] t.2
    ((r.client.isSome = true ∧ r.err = none) ∨ (r.client = none ∧ r.err.isSome = true)) ∧
    (match t.1.2 with
      | some e => r.client = none ∧ r.err = some e ∧ dialledAddrs r.trace = [] ∧ r.world = t.2
      | none =>
        match d.1.2 with
        | some e => r.client = none ∧ r.err = some e ∧ r.world = d.2
        | none =>
          r.client = some { logger := logger, client := X.NewNotificationsClient d.1.1,
                            conn := d.1.1, opts := p } ∧
          r.err = none ∧ r.world = d.2 ∧
          r.heap p = { heap p with
            Caller := if (heap p).Caller = "" then DefaultClientName else (heap p).Caller }) := by
  intro r t d
  have hheap : r.heap p = { heap p with
      Caller := if (heap p).Caller = "" then DefaultClientName else (heap p).Caller } := by
    simp only [r, NewClient_heap]
    by_cases hc : (heap p).Caller = ""
    · simp [hc, Heap.setCaller]
    · simp [hc]
  rcases hs : X.SetupTLSConfig X.NOTIFICATIONS_CLIENT w with ⟨⟨tls, e1⟩, w1⟩
  cases e1 with
  | some e => simp [r, t, NewClient, hs, dialledAddrs]
  | none =>
    rcases hd : X.Dial (serviceAddr X) [.WithTransportCredentials (X.NewTLS tls)] w1
      with ⟨⟨conn, e2⟩, w2⟩
    cases e2 with
    | some e => simp [r, t, d, NewClient, hs, hd]
    | none =>
      have hr : r.client = some ⟨logger, X.NewNotificationsClient conn, conn, p⟩ ∧
          r.err = none ∧ r.world = w2 := by
        simp [r, NewClient, hs, hd]
      simp only [t, d, hs, hd]
      exact ⟨Or.inl ⟨by simp [hr.1], hr.2.1⟩, hr.1, hr.2.1, hr.2.2, hheap⟩

/-- C7: when `NewClient` dials (the provider succeeded) it dials exactly once, the
address `h ++ ":" ++ q` with `h` the value of NOTIFICATIONS_SERVICE_HOST, or
"127.0.0.1" when that is empty, and `q` the value of NOTIFICATIONS_SERVICE_PORT,
or "58051" when that is empty, each default on its own; when the provider failed
it dials nothing.  With both variables empty the address is "127.0.0.1:58051". -/
theorem NewClient_dials_resolved_address {T : ExtTypes} (X : Ext T) (logger : T.AppLogger)
    (p : Ptr) (heap : Heap) (w : T.World) :
    let h := X.Getenv "NOTIFICATIONS_SERVICE_HOST"
    let q := X.Getenv "NOTIFICATIONS_SERVICE_PORT"
    let addr := (if h = "" then "127.0.0.1" else h) ++ ":" ++ (if q = "" then "58051" else q)
    dialledAddrs (NewClient X logger p heap w).trace =
      (if (X.SetupTLSConfig X.NOTIFICATIONS_CLIENT w).1.2.isSome then [] else [addr]) ∧
    (h = "" ∧ q = "" → addr = "127.0.0.1:58051") := by
  intro h q addr
  have haddr : serviceAddr X = addr := by
    simp only [serviceAddr, serviceHost, servicePort, DEFAULT_SERVICE_HOST,
      DEFAULT_SERVICE_PORT, addr, h, q]
  constructor
  · rcases hs : X.SetupTLSConfig X.NOTIFICATIONS_CLIENT w with ⟨⟨tls, e1⟩, w1⟩
    cases e1 with
    | some e => simp [NewClient, hs, dialledAddrs]
    | none =>
      rcases hd : X.Dial (serviceAddr X) [.WithTransportCredentials (X.NewTLS tls)] w1
        with ⟨⟨conn, e2⟩, w2⟩
      rw [← haddr]
      cases e2 <;> simp [NewClient, hs, hd, dialledAddrs]
  · rintro ⟨h0, q0⟩
    simp only [addr, h0, q0, if_true]
    decide

/-- Witness of C7: with an empty environment and a provider that succeeds, the one
address dialled is "127.0.0.1:58051". -/
theorem NewClient_dials_resolved_address_witness :
    dialledAddrs (NewClient (demoExt channelStub) () 0 (demoHeap "c") demoWorld).trace
      = ["127.0.0.1:58051"] :=
  (NewClient_dials_resolved_address (demoExt channelStub) () 0 (demoHeap "c") demoWorld).1.trans
    (congrArg (fun a => [a])
      ((NewClient_dials_resolved_address (demoExt channelStub) () 0 (demoHeap "c") demoWorld).2
        ⟨rfl, rfl⟩))

/-- C8: in each of the five operations, whatever the stub returns, the trace is the
call of the stub followed by one call of the cancel function that
`context.WithTimeout` returned with the derived context: the cancel function is
invoked exactly once, after the stub call, and it is the last thing the
operation does. -/
theorem cancel_once_after_stub_call {T : ExtTypes} (nc : notificationsClient T) (heap : Heap)
    (now : Time) (ctx : Context) (callOpts : List T.CallOption) (w : T.World)
    (q1 : T.NotificationTypesRequest) (q2 : T.CreateNotificationRequest)
    (q3 : T.GetNotificationRequest) (q4 : T.GetNotificationsRequest)
    (q5 : T.DeleteNotificationRequest) :
    let c := (nc.contextWithOptions heap now ctx nc.opts).1
    let cancel := (WithTimeout now ctx (heap nc.opts).DialTimeout).2
    let t1 := (nc.GetNotificationTypes heap now ctx q1 callOpts w).trace
    let t2 := (nc.CreateNotification heap now ctx q2 callOpts w).trace
    let t3 := (nc.GetNotification heap now ctx q3 callOpts w).trace
    let t4 := (nc.GetNotifications heap now ctx q4 callOpts w).trace
    let t5 := (nc.DeleteNotification heap now ctx q5 callOpts w).trace
    (t1 = [.rpcGetNotificationTypes c q1 [], .cancel cancel] ∧ cancelCalls t1 = [cancel]) ∧
    (t2 = [.rpcCreateNotification c q2 [], .cancel cancel] ∧ cancelCalls t2 = [cancel]) ∧
    (t3 = [.rpcGetNotification c q3 [], .cancel cancel] ∧ cancelCalls t3 = [cancel]) ∧
    (t4 = [.rpcGetNotifications c q4 [], .cancel cancel] ∧ cancelCalls t4 = [cancel]) ∧
    (t5 = [.rpcDeleteNotification c q5 [], .cancel cancel] ∧ cancelCalls t5 = [cancel]) := by
  intro c cancel t1 t2 t3 t4 t5
  have hcancel : (nc.contextWithOptions heap now ctx nc.opts).2 = cancel := by
    unfold notificationsClient.contextWithOptions
    by_cases hc : (heap nc.opts).Caller = "" <;> simp [hc, cancel]
  refine ⟨⟨?_, ?_⟩, ⟨?_, ?_⟩, ⟨?_, ?_⟩, ⟨?_, ?_⟩, ⟨?_, ?_⟩⟩ <;>
    simp [t1, t2, t3, t4, t5, c, cancelCalls, hcancel,
      notificationsClient.GetNotificationTypes, notificationsClient.CreateNotification,
      notificationsClient.GetNotification, notificationsClient.GetNotifications,
      notificationsClient.DeleteNotification]

/-- C9 as stated fails: for a client whose options have an empty caller at call time,
and an inbound context without metadata, the context that `contextWithOptions`
derives carries no outgoing metadata at all. -/
theorem contextWithOptions_default_fails :
    ¬ ∀ (nc : notificationsClient demoTypes) (heap : Heap) (now : Time) (ctx : Context),
        outgoingRaw (nc.contextWithOptions heap now ctx nc.opts).1 =
          some (.rawMD [("service-client",
            [if (heap nc.opts).Caller = "" then DefaultClientName
             else (heap nc.opts).Caller])] []) := by
  intro h
  have h1 := h (demoClient channelStub) (demoHeap "") 0 .background
  rw [contextWithOptions_outgoing] at h1
  revert h1
  decide

/-- C9, amended: `contextWithOptions` applies no default.  When the caller of the
options is non-empty at call time the derived context carries the outgoing
metadata "service-client" equal to it (alone, replacing what the inbound context
carried); when it is empty the derived context carries whatever outgoing
metadata the inbound context carried, and none when that carried none. -/
theorem contextWithOptions_metadata {T : ExtTypes} (nc : notificationsClient T) (heap : Heap)
    (now : Time) (ctx : Context) :
    outgoingRaw (nc.contextWithOptions heap now ctx nc.opts).1 =
      if (heap nc.opts).Caller = "" then outgoingRaw ctx
      else some (.rawMD [("service-client", [(heap nc.opts).Caller])] []) :=
  contextWithOptions_outgoing nc heap now ctx nc.opts

/-- C10: the call options given to an operation have no influence: for any two lists of
call options each of the five operations returns the same result, leaves the
same world and makes the same calls, and the stub is called with no call option. -/
theorem call_options_ignored {T : ExtTypes} (nc : notificationsClient T) (heap : Heap)
    (now : Time) (ctx : Context) (o1 o2 : List T.CallOption) (w : T.World)
    (q1 : T.NotificationTypesRequest) (q2 : T.CreateNotificationRequest)
    (q3 : T.GetNotificationRequest) (q4 : T.GetNotificationsRequest)
    (q5 : T.DeleteNotificationRequest) :
    let c := (nc.contextWithOptions heap now ctx nc.opts).1
    (nc.GetNotificationTypes heap now ctx q1 o1 w = nc.GetNotificationTypes heap now ctx q1 o2 w ∧
      stubCalls (nc.GetNotificationTypes heap now ctx q1 o1 w).trace
        = [.rpcGetNotificationTypes c q1 []]) ∧
    (nc.CreateNotification heap now ctx q2 o1 w = nc.CreateNotification heap now ctx q2 o2 w ∧
      stubCalls (nc.CreateNotification heap now ctx q2 o1 w).trace
        = [.rpcCreateNotification c q2 []]) ∧
    (nc.GetNotification heap now ctx q3 o1 w = nc.GetNotification heap now ctx q3 o2 w ∧
      stubCalls (nc.GetNotification heap now ctx q3 o1 w).trace
        = [.rpcGetNotification c q3 []]) ∧
    (nc.GetNotifications heap now ctx q4 o1 w = nc.GetNotifications heap now ctx q4 o2 w ∧
      stubCalls (nc.GetNotifications heap now ctx q4 o1 w).trace
        = [.rpcGetNotifications c q4 []]) ∧
    (nc.DeleteNotification heap now ctx q5 o1 w = nc.DeleteNotification heap now ctx q5 o2 w ∧
      stubCalls (nc.DeleteNotification heap now ctx q5 o1 w).trace
        = [.rpcDeleteNotification c q5 []]) := by
  intro c
  refine ⟨⟨rfl, ?_⟩, ⟨rfl, ?_⟩, ⟨rfl, ?_⟩, ⟨rfl, ?_⟩, ⟨rfl, ?_⟩⟩ <;>
    simp [stubCalls, Event.stubCtx, c,
      notificationsClient.GetNotificationTypes, notificationsClient.CreateNotification,
      notificationsClient.GetNotification, notificationsClient.GetNotifications,
      notificationsClient.DeleteNotification]

end Comff
